import Mathlib

/-!
Shallow embedding of the Solidity contract `IdentityVerification`
(contracts/Identity.sol) and proofs of its specification's claims.

Addresses are modelled as `Nat` (opaque identifiers; the zero address is the
Solidity default value `address(0)`).  A transaction either succeeds with a new
contract state (`Except.ok`) or reverts (`Except.error` carrying the `require`
message), in which case the chain keeps the old state and no events are kept.
Solidity mapping reads on absent keys yield the zero-initialised struct, so the
store is a total function from addresses to `Identity` records.
-/

namespace IdentityVerification

/-- The `Identity` struct of the contract: owner address, display name, email,
verification flag and existence flag. -/
structure Identity where
  user : Nat
  name : String
  email : String
  isVerified : Bool
  «exists» : Bool
deriving Repr, DecidableEq

/-- The zero-initialised `Identity` struct: value of `identities[a]` for a key
that was never written, and the result of `delete identities[a]`. -/
def defaultIdentity : Identity :=
  { user := 0, name := "", email := "", isVerified := false, «exists» := false }

/-- The events declared by the contract. -/
inductive Event where
  | IdentityAdded (user : Nat) (name email : String)
  | IdentityUpdated (user : Nat) (name email : String)
  | IdentityDeleted (user : Nat)
  | IdentityVerified (user : Nat)
  | IdentityRevoked (user : Nat)
  | IdentityActionLogged (action : String)
deriving Repr, DecidableEq

/-- Contract storage plus the append-only list of emitted events. -/
structure ContractState where
  identities : Nat → Identity
  events : List Event

/-- Write `identities[a] = r`. -/
def setIdentity (a : Nat) (r : Identity) (s : ContractState) : ContractState :=
  { s with identities := fun b => if b = a then r else s.identities b }

/-- `emit e`. -/
def emit (e : Event) (s : ContractState) : ContractState :=
  { s with events := s.events ++ [e] }

/-- `logIdentityAction(action)`: emits `IdentityActionLogged(action)`. -/
def logIdentityAction (action : String) (s : ContractState) : ContractState :=
  emit (Event.IdentityActionLogged action) s

/-- `addIdentity(_name, _email)` called by `sender`. -/
def addIdentity (sender : Nat) (_name _email : String) (s : ContractState) :
    Except String ContractState :=
  if (s.identities sender).«exists» then
    Except.error "Identity already exists"
  else
    Except.ok (logIdentityAction "Identity Added"
      (emit (Event.IdentityAdded sender _name _email)
        (setIdentity sender
          { user := sender, name := _name, email := _email,
            isVerified := false, «exists» := true } s)))

/-- `updateIdentity(_name, _email)` called by `sender`. -/
def updateIdentity (sender : Nat) (_name _email : String) (s : ContractState) :
    Except String ContractState :=
  if (s.identities sender).«exists» then
    Except.ok (logIdentityAction "Identity Updated"
      (emit (Event.IdentityUpdated sender _name _email)
        (setIdentity sender
          { s.identities sender with name := _name, email := _email } s)))
  else
    Except.error "Identity does not exist"

/-- `deleteIdentity()` called by `sender`; `delete identities[msg.sender]`
resets the slot to the zero-initialised struct. -/
def deleteIdentity (sender : Nat) (s : ContractState) :
    Except String ContractState :=
  if (s.identities sender).«exists» then
    Except.ok (logIdentityAction "Identity Deleted"
      (emit (Event.IdentityDeleted sender)
        (setIdentity sender defaultIdentity s)))
  else
    Except.error "Identity does not exist"

/-- `verifyIdentity()` called by `sender`. -/
def verifyIdentity (sender : Nat) (s : ContractState) :
    Except String ContractState :=
  if (s.identities sender).«exists» then
    Except.ok (logIdentityAction "Identity Verified"
      (emit (Event.IdentityVerified sender)
        (setIdentity sender
          { s.identities sender with isVerified := true } s)))
  else
    Except.error "Identity does not exist"

/-- `revokeIdentity()` called by `sender`. -/
def revokeIdentity (sender : Nat) (s : ContractState) :
    Except String ContractState :=
  if (s.identities sender).«exists» then
    Except.ok (logIdentityAction "Identity Revoked"
      (emit (Event.IdentityRevoked sender)
        (setIdentity sender
          { s.identities sender with isVerified := false } s)))
  else
    Except.error "Identity does not exist"

/-- `getIdentity(_user)`: guarded read of the record. -/
def getIdentity (_user : Nat) (s : ContractState) : Except String Identity :=
  if (s.identities _user).«exists» then
    Except.ok (s.identities _user)
  else
    Except.error "Identity does not exist"

/-- `isIdentityVerified(_user)`: guarded read of the verification flag. -/
def isIdentityVerified (_user : Nat) (s : ContractState) : Except String Bool :=
  if (s.identities _user).«exists» then
    Except.ok (s.identities _user).isVerified
  else
    Except.error "Identity does not exist"

/-- The auto-generated public getter of the `identities` mapping: an unguarded
total read of the slot. -/
def identities (_user : Nat) (s : ContractState) : Identity :=
  s.identities _user

/-- The five external mutating entry points of the contract. -/
inductive Call where
  | add (name email : String)
  | update (name email : String)
  | delete
  | verify
  | revoke
deriving Repr, DecidableEq

/-- Dispatch a call from `sender` to the corresponding contract function. -/
def dispatch (sender : Nat) (c : Call) (s : ContractState) :
    Except String ContractState :=
  match c with
  | Call.add n e => addIdentity sender n e s
  | Call.update n e => updateIdentity sender n e s
  | Call.delete => deleteIdentity sender s
  | Call.verify => verifyIdentity sender s
  | Call.revoke => revokeIdentity sender s

/-- Transaction semantics: a reverted call leaves the chain state unchanged. -/
def execute (sender : Nat) (c : Call) (s : ContractState) : ContractState :=
  match dispatch sender c s with
  | Except.ok s' => s'
  | Except.error _ => s

/-- Freshly deployed contract: zero-initialised storage, no events. -/
def initialState : ContractState :=
  { identities := fun _ => defaultIdentity, events := [] }

/-- States reachable from deployment by successful transactions (reverted
transactions do not change the state). -/
inductive Reachable : ContractState → Prop where
  | init : Reachable initialState
  | step (sender : Nat) (c : Call) {s s' : ContractState} :
      Reachable s → dispatch sender c s = Except.ok s' → Reachable s'

/-- A successful `addIdentity` implies the guard held and fully describes the
new storage and event list. -/
theorem addIdentity_ok_spec {sender : Nat} {n e : String} {s s' : ContractState}
    (h : addIdentity sender n e s = Except.ok s') :
    (s.identities sender).«exists» = false ∧
    (∀ b, s'.identities b =
      if b = sender then
        { user := sender, name := n, email := e,
          isVerified := false, «exists» := true }
      else s.identities b) ∧
    s'.events = s.events ++
      [Event.IdentityAdded sender n e, Event.IdentityActionLogged "Identity Added"] := by
  cases hx : (s.identities sender).«exists» with
  | true => simp [addIdentity, hx] at h
  | false =>
    simp [addIdentity, hx] at h
    subst h
    simp [logIdentityAction, emit, setIdentity, hx]

/-- A successful `updateIdentity` implies the guard held and fully describes
the new storage and event list. -/
theorem updateIdentity_ok_spec {sender : Nat} {n e : String} {s s' : ContractState}
    (h : updateIdentity sender n e s = Except.ok s') :
    (s.identities sender).«exists» = true ∧
    (∀ b, s'.identities b =
      if b = sender then { s.identities sender with name := n, email := e }
      else s.identities b) ∧
    s'.events = s.events ++
      [Event.IdentityUpdated sender n e, Event.IdentityActionLogged "Identity Updated"] := by
  cases hx : (s.identities sender).«exists» with
  | false => simp [updateIdentity, hx] at h
  | true =>
    simp [updateIdentity, hx] at h
    subst h
    simp [logIdentityAction, emit, setIdentity, hx]

/-- A successful `deleteIdentity` implies the guard held and fully describes
the new storage and event list. -/
theorem deleteIdentity_ok_spec {sender : Nat} {s s' : ContractState}
    (h : deleteIdentity sender s = Except.ok s') :
    (s.identities sender).«exists» = true ∧
    (∀ b, s'.identities b =
      if b = sender then defaultIdentity else s.identities b) ∧
    s'.events = s.events ++
      [Event.IdentityDeleted sender, Event.IdentityActionLogged "Identity Deleted"] := by
  cases hx : (s.identities sender).«exists» with
  | false => simp [deleteIdentity, hx] at h
  | true =>
    simp [deleteIdentity, hx] at h
    subst h
    simp [logIdentityAction, emit, setIdentity, hx]

/-- A successful `verifyIdentity` implies the guard held and fully describes
the new storage and event list. -/
theorem verifyIdentity_ok_spec {sender : Nat} {s s' : ContractState}
    (h : verifyIdentity sender s = Except.ok s') :
    (s.identities sender).«exists» = true ∧
    (∀ b, s'.identities b =
      if b = sender then { s.identities sender with isVerified := true }
      else s.identities b) ∧
    s'.events = s.events ++
      [Event.IdentityVerified sender, Event.IdentityActionLogged "Identity Verified"] := by
  cases hx : (s.identities sender).«exists» with
  | false => simp [verifyIdentity, hx] at h
  | true =>
    simp [verifyIdentity, hx] at h
    subst h
    simp [logIdentityAction, emit, setIdentity, hx]

/-- A successful `revokeIdentity` implies the guard held and fully describes
the new storage and event list. -/
theorem revokeIdentity_ok_spec {sender : Nat} {s s' : ContractState}
    (h : revokeIdentity sender s = Except.ok s') :
    (s.identities sender).«exists» = true ∧
    (∀ b, s'.identities b =
      if b = sender then { s.identities sender with isVerified := false }
      else s.identities b) ∧
    s'.events = s.events ++
      [Event.IdentityRevoked sender, Event.IdentityActionLogged "Identity Revoked"] := by
  cases hx : (s.identities sender).«exists» with
  | false => simp [revokeIdentity, hx] at h
  | true =>
    simp [revokeIdentity, hx] at h
    subst h
    simp [logIdentityAction, emit, setIdentity, hx]

/-- Per-record invariant maintained by the contract at key `p`: verification
implies existence, absent slots are zero-initialised, and live records store
their own key in the `user` field. -/
def RecordInv (p : Nat) (r : Identity) : Prop :=
  (r.isVerified = true → r.«exists» = true) ∧
  (r.«exists» = false → r = defaultIdentity) ∧
  (r.«exists» = true → r.user = p)

/-- Every reachable state satisfies `RecordInv` at every key. -/
theorem reachable_recordInv {s : ContractState} (hr : Reachable s) (p : Nat) :
    RecordInv p (s.identities p) := by
  induction hr with
  | init =>
    unfold RecordInv
    refine ⟨fun h => ?_, fun _ => rfl, fun h => ?_⟩
    · simp [initialState, defaultIdentity] at h
    · simp [initialState, defaultIdentity] at h
  | step sender c ha hok ih =>
    obtain ⟨h1, h2, h3⟩ := ih
    cases c with
    | add n e =>
      obtain ⟨hg, hid, -⟩ := addIdentity_ok_spec hok
      unfold RecordInv
      rw [hid p]
      by_cases hp : p = sender
      · subst hp
        rw [if_pos rfl]
        exact ⟨fun h => by simp at h, fun h => by simp at h, fun _ => rfl⟩
      · rw [if_neg hp]; exact ⟨h1, h2, h3⟩
    | update n e =>
      obtain ⟨hg, hid, -⟩ := updateIdentity_ok_spec hok
      unfold RecordInv
      rw [hid p]
      by_cases hp : p = sender
      · subst hp
        rw [if_pos rfl]
        refine ⟨fun _ => ?_, fun h => ?_, fun _ => ?_⟩
        · simpa using hg
        · simp [hg] at h
        · simpa using h3 hg
      · rw [if_neg hp]; exact ⟨h1, h2, h3⟩
    | delete =>
      obtain ⟨hg, hid, -⟩ := deleteIdentity_ok_spec hok
      unfold RecordInv
      rw [hid p]
      by_cases hp : p = sender
      · subst hp
        rw [if_pos rfl]
        exact ⟨fun h => by simp [defaultIdentity] at h, fun _ => rfl,
          fun h => by simp [defaultIdentity] at h⟩
      · rw [if_neg hp]; exact ⟨h1, h2, h3⟩
    | verify =>
      obtain ⟨hg, hid, -⟩ := verifyIdentity_ok_spec hok
      unfold RecordInv
      rw [hid p]
      by_cases hp : p = sender
      · subst hp
        rw [if_pos rfl]
        refine ⟨fun _ => ?_, fun h => ?_, fun _ => ?_⟩
        · simpa using hg
        · simp [hg] at h
        · simpa using h3 hg
      · rw [if_neg hp]; exact ⟨h1, h2, h3⟩
    | revoke =>
      obtain ⟨hg, hid, -⟩ := revokeIdentity_ok_spec hok
      unfold RecordInv
      rw [hid p]
      by_cases hp : p = sender
      · subst hp
        rw [if_pos rfl]
        refine ⟨fun _ => ?_, fun h => ?_, fun _ => ?_⟩
        · simpa using hg
        · simp [hg] at h
        · simpa using h3 hg
      · rw [if_neg hp]; exact ⟨h1, h2, h3⟩

/-- When no live record is present, `addIdentity` succeeds with the indicated
state. -/
theorem addIdentity_ok_of {p : Nat} {n e : String} {s : ContractState}
    (h : (s.identities p).«exists» = false) :
    addIdentity p n e s = Except.ok (logIdentityAction "Identity Added"
      (emit (Event.IdentityAdded p n e)
        (setIdentity p
          { user := p, name := n, email := e,
            isVerified := false, «exists» := true } s))) := by
  simp [addIdentity, h]

/-- When a live record is present, `updateIdentity` succeeds with the indicated
state. -/
theorem updateIdentity_ok_of {p : Nat} {n e : String} {s : ContractState}
    (h : (s.identities p).«exists» = true) :
    updateIdentity p n e s = Except.ok (logIdentityAction "Identity Updated"
      (emit (Event.IdentityUpdated p n e)
        (setIdentity p
          { s.identities p with name := n, email := e } s))) := by
  simp [updateIdentity, h]

/-- When a live record is present, `deleteIdentity` succeeds with the indicated
state. -/
theorem deleteIdentity_ok_of {p : Nat} {s : ContractState}
    (h : (s.identities p).«exists» = true) :
    deleteIdentity p s = Except.ok (logIdentityAction "Identity Deleted"
      (emit (Event.IdentityDeleted p)
        (setIdentity p defaultIdentity s))) := by
  simp [deleteIdentity, h]

/-- When a live record is present, `verifyIdentity` succeeds with the indicated
state. -/
theorem verifyIdentity_ok_of {p : Nat} {s : ContractState}
    (h : (s.identities p).«exists» = true) :
    verifyIdentity p s = Except.ok (logIdentityAction "Identity Verified"
      (emit (Event.IdentityVerified p)
        (setIdentity p
          { s.identities p with isVerified := true } s))) := by
  simp [verifyIdentity, h]

/-- When a live record is present, `revokeIdentity` succeeds with the indicated
state. -/
theorem revokeIdentity_ok_of {p : Nat} {s : ContractState}
    (h : (s.identities p).«exists» = true) :
    revokeIdentity p s = Except.ok (logIdentityAction "Identity Revoked"
      (emit (Event.IdentityRevoked p)
        (setIdentity p
          { s.identities p with isVerified := false } s))) := by
  simp [revokeIdentity, h]

/-- Reference scenario of the test suite: account 1 registers "Alice". -/
def exAdded : ContractState :=
  execute 1 (Call.add "Alice" "alice@example.com") initialState

/-- Scenario state after account 1 verifies its identity. -/
def exVerified : ContractState := execute 1 Call.verify exAdded

/-- Scenario state after account 1 updates its verified identity. -/
def exUpdated : ContractState :=
  execute 1 (Call.update "Alice2" "a2@example.com") exVerified

/-- Scenario state after account 1 revokes its verification. -/
def exRevoked : ContractState := execute 1 Call.revoke exVerified

/-- Scenario state after account 1 deletes its (unverified) identity. -/
def exDeleted : ContractState := execute 1 Call.delete exAdded

/-- C1: in every reachable state, every stored record satisfies
`isVerified = true → exists = true`, and this predicate is preserved by every
operation (`addIdentity`, `updateIdentity`, `deleteIdentity`, `verifyIdentity`,
`revokeIdentity`). -/
theorem C1_verified_implies_exists :
    (∀ s, Reachable s → ∀ p, (s.identities p).isVerified = true →
      (s.identities p).«exists» = true) ∧
    (∀ sender c s s',
      (∀ p, (s.identities p).isVerified = true → (s.identities p).«exists» = true) →
      dispatch sender c s = Except.ok s' →
      ∀ p, (s'.identities p).isVerified = true → (s'.identities p).«exists» = true) := by
  constructor
  · intro s hr p hv
    exact (reachable_recordInv hr p).1 hv
  · intro sender c s s' hinv hd p
    cases c with
    | add n e =>
      obtain ⟨-, hid, -⟩ := addIdentity_ok_spec hd
      rw [hid p]
      by_cases hp : p = sender
      · rw [if_pos hp]; intro _; rfl
      · rw [if_neg hp]; exact hinv p
    | update n e =>
      obtain ⟨hg, hid, -⟩ := updateIdentity_ok_spec hd
      rw [hid p]
      by_cases hp : p = sender
      · rw [if_pos hp]; intro _; exact hg
      · rw [if_neg hp]; exact hinv p
    | delete =>
      obtain ⟨-, hid, -⟩ := deleteIdentity_ok_spec hd
      rw [hid p]
      by_cases hp : p = sender
      · rw [if_pos hp]; intro hv; exact absurd hv (by simp [defaultIdentity])
      · rw [if_neg hp]; exact hinv p
    | verify =>
      obtain ⟨hg, hid, -⟩ := verifyIdentity_ok_spec hd
      rw [hid p]
      by_cases hp : p = sender
      · rw [if_pos hp]; intro _; exact hg
      · rw [if_neg hp]; exact hinv p
    | revoke =>
      obtain ⟨hg, hid, -⟩ := revokeIdentity_ok_spec hd
      rw [hid p]
      by_cases hp : p = sender
      · rw [if_pos hp]; intro _; exact hg
      · rw [if_neg hp]; exact hinv p

/-- Witness for C1 at the state reached by `add` then `verify` from account 1,
whose record is verified and live. -/
theorem C1_witness :
    (exVerified.identities 1).isVerified = true ∧
    (exVerified.identities 1).«exists» = true :=
  ⟨rfl, C1_verified_implies_exists.1 exVerified
    (Reachable.step 1 Call.verify
      (Reachable.step 1 (Call.add "Alice" "alice@example.com")
        Reachable.init rfl) rfl) 1 rfl⟩

/-- C9: the public `identities` getter is an unguarded total read: in every
reachable state, for a principal with no live record it returns the
zero-initialised default record (all flags false, empty strings) instead of
failing. -/
theorem C9_default_read (s : ContractState) (hr : Reachable s) (p : Nat)
    (h : (identities p s).«exists» = false) :
    identities p s = defaultIdentity :=
  (reachable_recordInv hr p).2.1 h

/-- Witness for C9 at the state reached by `add` then `delete` from account 1:
the deleted slot reads back as the default record. -/
theorem C9_witness : identities 1 exDeleted = defaultIdentity :=
  C9_default_read exDeleted
    (Reachable.step 1 Call.delete
      (Reachable.step 1 (Call.add "Alice" "alice@example.com")
        Reachable.init rfl) rfl) 1 rfl

/-- C10: in every reachable state, every live record stores its mapping key in
its `user` field. -/
theorem C10_key_consistency (s : ContractState) (hr : Reachable s) (p : Nat)
    (h : (s.identities p).«exists» = true) :
    (s.identities p).user = p :=
  (reachable_recordInv hr p).2.2 h

/-- Witness for C10 at the state reached by `add` from account 1. -/
theorem C10_witness : (exAdded.identities 1).user = 1 :=
  C10_key_consistency exAdded
    (Reachable.step 1 (Call.add "Alice" "alice@example.com")
      Reachable.init rfl) 1 rfl

/-- C2: the four owner mutations fail with the not-found revert exactly when
the caller has no live record, `addIdentity` fails with the already-exists
revert exactly when the caller has a live record, and every failed call leaves
the whole state (store and event log) unchanged. -/
theorem C2_failure_characterisation (p : Nat) (n e : String) (s : ContractState) :
    (updateIdentity p n e s = Except.error "Identity does not exist" ↔
      (s.identities p).«exists» = false) ∧
    (deleteIdentity p s = Except.error "Identity does not exist" ↔
      (s.identities p).«exists» = false) ∧
    (verifyIdentity p s = Except.error "Identity does not exist" ↔
      (s.identities p).«exists» = false) ∧
    (revokeIdentity p s = Except.error "Identity does not exist" ↔
      (s.identities p).«exists» = false) ∧
    (addIdentity p n e s = Except.error "Identity already exists" ↔
      (s.identities p).«exists» = true) ∧
    (∀ c msg, dispatch p c s = Except.error msg → execute p c s = s) := by
  refine ⟨?_, ?_, ?_, ?_, ?_, ?_⟩
  · cases hx : (s.identities p).«exists» <;> simp [updateIdentity, hx]
  · cases hx : (s.identities p).«exists» <;> simp [deleteIdentity, hx]
  · cases hx : (s.identities p).«exists» <;> simp [verifyIdentity, hx]
  · cases hx : (s.identities p).«exists» <;> simp [revokeIdentity, hx]
  · cases hx : (s.identities p).«exists» <;> simp [addIdentity, hx]
  · intro c msg hd
    unfold execute
    rw [hd]

/-- Witness for C2: on the fresh contract, account 2 cannot update, and after
its create, account 1 cannot create again; the failed update changes nothing. -/
theorem C2_witness :
    updateIdentity 2 "Bob" "bob@example.com" initialState =
      Except.error "Identity does not exist" ∧
    addIdentity 1 "Alice" "alice@example.com" exAdded =
      Except.error "Identity already exists" ∧
    execute 2 (Call.update "Bob" "bob@example.com") initialState = initialState :=
  ⟨(C2_failure_characterisation 2 "Bob" "bob@example.com" initialState).1.mpr rfl,
   (C2_failure_characterisation 1 "Alice" "alice@example.com" exAdded).2.2.2.2.1.mpr rfl,
   (C2_failure_characterisation 2 "Bob" "bob@example.com" initialState).2.2.2.2.2
     (Call.update "Bob" "bob@example.com") "Identity does not exist" rfl⟩

/-- C3: when the caller has no live record, `addIdentity` succeeds and the
caller's record becomes exactly the fresh unverified record; `getIdentity` then
returns it and `isIdentityVerified` returns `false`. -/
theorem C3_create (p : Nat) (n e : String) (s : ContractState)
    (h : (s.identities p).«exists» = false) :
    ∃ s', addIdentity p n e s = Except.ok s' ∧
      s'.identities p =
        { user := p, name := n, email := e, isVerified := false, «exists» := true } ∧
      getIdentity p s' = Except.ok
        { user := p, name := n, email := e, isVerified := false, «exists» := true } ∧
      isIdentityVerified p s' = Except.ok false := by
  refine ⟨_, addIdentity_ok_of h, ?_, ?_, ?_⟩
  · simp [logIdentityAction, emit, setIdentity]
  · simp [getIdentity, logIdentityAction, emit, setIdentity]
  · simp [isIdentityVerified, logIdentityAction, emit, setIdentity]

/-- Witness for C3: account 1 creating "Alice" on the fresh contract yields
exactly the fresh unverified record. -/
theorem C3_witness :
    addIdentity 1 "Alice" "alice@example.com" initialState = Except.ok exAdded ∧
    exAdded.identities 1 =
      { user := 1, name := "Alice", email := "alice@example.com",
        isVerified := false, «exists» := true } := by
  obtain ⟨s', hok, hrec, -, -⟩ :=
    C3_create 1 "Alice" "alice@example.com" initialState rfl
  have hs : (Except.ok s' : Except String ContractState) = Except.ok exAdded := by rw [← hok]; rfl
  cases hs
  exact ⟨hok, hrec⟩

/-- C4: when the caller has a live record, `updateIdentity` succeeds,
overwrites only the name and email fields of the caller's record, and leaves
its `user`, `isVerified` and `exists` fields unchanged. -/
theorem C4_update_frame (p : Nat) (n e : String) (s : ContractState)
    (h : (s.identities p).«exists» = true) :
    ∃ s', updateIdentity p n e s = Except.ok s' ∧
      s'.identities p = { s.identities p with name := n, email := e } ∧
      (s'.identities p).user = (s.identities p).user ∧
      (s'.identities p).isVerified = (s.identities p).isVerified ∧
      (s'.identities p).«exists» = true := by
  refine ⟨_, updateIdentity_ok_of h, ?_, ?_, ?_, ?_⟩
  · simp [logIdentityAction, emit, setIdentity]
  · simp [logIdentityAction, emit, setIdentity]
  · simp [logIdentityAction, emit, setIdentity]
  · simp [logIdentityAction, emit, setIdentity, h]

/-- Witness for C4: account 1 updating its verified record keeps
`isVerified = true` while changing name and email. -/
theorem C4_witness :
    updateIdentity 1 "Alice2" "a2@example.com" exVerified = Except.ok exUpdated ∧
    (exUpdated.identities 1).isVerified = true ∧
    (exUpdated.identities 1).name = "Alice2" := by
  obtain ⟨s', hok, hrec, -, hver, -⟩ :=
    C4_update_frame 1 "Alice2" "a2@example.com" exVerified rfl
  have hs : (Except.ok s' : Except String ContractState) = Except.ok exUpdated := by rw [← hok]; rfl
  cases hs
  refine ⟨hok, hver.trans rfl, ?_⟩
  rw [hrec]

/-- C5: a call from `q` never changes the record of a different principal `p`,
whether it succeeds or reverts: no record can be created, edited or deleted by
a non-owning caller. -/
theorem C5_owner_isolation (p q : Nat) (c : Call) (s : ContractState)
    (hne : q ≠ p) :
    (execute q c s).identities p = s.identities p := by
  have hne' : ¬ p = q := fun hh => hne hh.symm
  cases c with
  | add n e =>
    unfold execute
    cases hd : dispatch q (Call.add n e) s with
    | error msg => rfl
    | ok s' =>
      show s'.identities p = s.identities p
      rw [(addIdentity_ok_spec hd).2.1 p, if_neg hne']
  | update n e =>
    unfold execute
    cases hd : dispatch q (Call.update n e) s with
    | error msg => rfl
    | ok s' =>
      show s'.identities p = s.identities p
      rw [(updateIdentity_ok_spec hd).2.1 p, if_neg hne']
  | delete =>
    unfold execute
    cases hd : dispatch q Call.delete s with
    | error msg => rfl
    | ok s' =>
      show s'.identities p = s.identities p
      rw [(deleteIdentity_ok_spec hd).2.1 p, if_neg hne']
  | verify =>
    unfold execute
    cases hd : dispatch q Call.verify s with
    | error msg => rfl
    | ok s' =>
      show s'.identities p = s.identities p
      rw [(verifyIdentity_ok_spec hd).2.1 p, if_neg hne']
  | revoke =>
    unfold execute
    cases hd : dispatch q Call.revoke s with
    | error msg => rfl
    | ok s' =>
      show s'.identities p = s.identities p
      rw [(revokeIdentity_ok_spec hd).2.1 p, if_neg hne']

/-- Witness for C5: account 2 registering its own identity leaves account 1's
record untouched. -/
theorem C5_witness :
    (execute 2 (Call.add "Bob" "bob@example.com") exAdded).identities 1 =
      exAdded.identities 1 :=
  C5_owner_isolation 1 2 (Call.add "Bob" "bob@example.com") exAdded (by decide)

/-- C6: every successful mutation appends exactly the matching specific event
followed by the generic action-logged event to the event list, and a reverted
call appends nothing. -/
theorem C6_events (sender : Nat) (c : Call) (s : ContractState) :
    (∀ s', dispatch sender c s = Except.ok s' →
      s'.events = s.events ++
        (match c with
         | Call.add n e =>
             [Event.IdentityAdded sender n e,
              Event.IdentityActionLogged "Identity Added"]
         | Call.update n e =>
             [Event.IdentityUpdated sender n e,
              Event.IdentityActionLogged "Identity Updated"]
         | Call.delete =>
             [Event.IdentityDeleted sender,
              Event.IdentityActionLogged "Identity Deleted"]
         | Call.verify =>
             [Event.IdentityVerified sender,
              Event.IdentityActionLogged "Identity Verified"]
         | Call.revoke =>
             [Event.IdentityRevoked sender,
              Event.IdentityActionLogged "Identity Revoked"])) ∧
    (∀ msg, dispatch sender c s = Except.error msg →
      (execute sender c s).events = s.events) := by
  constructor
  · intro s' hd
    cases c with
    | add n e => exact (addIdentity_ok_spec hd).2.2
    | update n e => exact (updateIdentity_ok_spec hd).2.2
    | delete => exact (deleteIdentity_ok_spec hd).2.2
    | verify => exact (verifyIdentity_ok_spec hd).2.2
    | revoke => exact (revokeIdentity_ok_spec hd).2.2
  · intro msg hd
    unfold execute
    rw [hd]

/-- Witness for C6: account 1's create on the fresh contract emits exactly
`IdentityAdded` then the generic log entry. -/
theorem C6_witness :
    exAdded.events =
      [Event.IdentityAdded 1 "Alice" "alice@example.com",
       Event.IdentityActionLogged "Identity Added"] := by
  have h := (C6_events 1 (Call.add "Alice" "alice@example.com") initialState).1
    exAdded rfl
  simpa [initialState] using h

/-- C7: when the caller has a live record, `deleteIdentity` succeeds and
resets the record to the absent default; afterwards `getIdentity`,
`isIdentityVerified` and a second `deleteIdentity` all revert with the
not-found message, while a fresh `addIdentity` succeeds again with
`isVerified = false`. -/
theorem C7_delete (p : Nat) (s : ContractState)
    (h : (s.identities p).«exists» = true) :
    ∃ s', deleteIdentity p s = Except.ok s' ∧
      s'.identities p = defaultIdentity ∧
      getIdentity p s' = Except.error "Identity does not exist" ∧
      isIdentityVerified p s' = Except.error "Identity does not exist" ∧
      deleteIdentity p s' = Except.error "Identity does not exist" ∧
      ∀ n e, ∃ s'', addIdentity p n e s' = Except.ok s'' ∧
        (s''.identities p).isVerified = false := by
  refine ⟨_, deleteIdentity_ok_of h, ?_, ?_, ?_, ?_, ?_⟩
  · simp [logIdentityAction, emit, setIdentity]
  · simp [getIdentity, logIdentityAction, emit, setIdentity, defaultIdentity]
  · simp [isIdentityVerified, logIdentityAction, emit, setIdentity, defaultIdentity]
  · simp [deleteIdentity, logIdentityAction, emit, setIdentity, defaultIdentity]
  · intro n e
    refine ⟨_, addIdentity_ok_of ?_, ?_⟩
    · simp [logIdentityAction, emit, setIdentity, defaultIdentity]
    · simp [logIdentityAction, emit, setIdentity]

/-- Witness for C7: after account 1 deletes its record, both a read and a
second delete revert with the not-found message. -/
theorem C7_witness :
    deleteIdentity 1 exDeleted = Except.error "Identity does not exist" ∧
    getIdentity 1 exDeleted = Except.error "Identity does not exist" := by
  obtain ⟨s', hok, -, hget, -, hdel, -⟩ := C7_delete 1 exAdded rfl
  have hs : (Except.ok s' : Except String ContractState) = Except.ok exDeleted := by
    rw [← hok]; rfl
  cases hs
  exact ⟨hdel, hget⟩

/-- C8: when the caller has a live record, `verifyIdentity` changes only the
`isVerified` field to `true`, a following `revokeIdentity` changes only the
`isVerified` field to `false`, and the pair leaves name, email, existence and
owner exactly as before. -/
theorem C8_verify_revoke (p : Nat) (s : ContractState)
    (h : (s.identities p).«exists» = true) :
    ∃ s1 s2, verifyIdentity p s = Except.ok s1 ∧
      revokeIdentity p s1 = Except.ok s2 ∧
      s1.identities p = { s.identities p with isVerified := true } ∧
      s2.identities p = { s1.identities p with isVerified := false } ∧
      (s2.identities p).isVerified = false ∧
      (s2.identities p).name = (s.identities p).name ∧
      (s2.identities p).email = (s.identities p).email ∧
      (s2.identities p).«exists» = (s.identities p).«exists» ∧
      (s2.identities p).user = (s.identities p).user := by
  refine ⟨_, _, verifyIdentity_ok_of h,
    revokeIdentity_ok_of (by simp [logIdentityAction, emit, setIdentity, h]),
    ?_, ?_, ?_, ?_, ?_, ?_, ?_⟩
  all_goals simp [logIdentityAction, emit, setIdentity]

/-- Witness for C8: account 1 verifying then revoking ends unverified with its
original name intact. -/
theorem C8_witness :
    verifyIdentity 1 exAdded = Except.ok exVerified ∧
    revokeIdentity 1 exVerified = Except.ok exRevoked ∧
    (exRevoked.identities 1).isVerified = false ∧
    (exRevoked.identities 1).name = "Alice" := by
  obtain ⟨s1, s2, hv, hr, -, -, hver, hname, -⟩ := C8_verify_revoke 1 exAdded rfl
  have e1 : (Except.ok s1 : Except String ContractState) = Except.ok exVerified := by
    rw [← hv]; rfl
  cases e1
  have e2 : (Except.ok s2 : Except String ContractState) = Except.ok exRevoked := by
    rw [← hr]; rfl
  cases e2
  exact ⟨hv, hr, hver, hname.trans rfl⟩

end IdentityVerification
